import Mathlib

/-!
Verification of the match-action analytics engine of the `voleibol-stats`
dashboard (`src/app.py`).  The data model and every operation below are
shallow embeddings of the corresponding Python/SQL code: SQL `GROUP BY`
aggregates become grouped list computations, the window function
`LAG(tipo_accion[, 2]) OVER (... ORDER BY id)` becomes an explicit
two-element history walk (`conPrevias`) over the id-sorted list, and
`ROUND(x, 1)` becomes rational rounding to one decimal (`round1`).
-/

namespace Voleibol

/-- Action types of `acciones_new.tipo_accion`:
`recepción, colocación, atacar, saque, defensa, bloqueo`. -/
inductive Tipo where
  | recepcion
  | colocacion
  | atacar
  | saque
  | defensa
  | bloqueo
deriving DecidableEq, Repr

/-- Outcome marks of `acciones_new.marca`: `#`, `+`, `!`, `-`, `/`, `=`
(point, positive, neutral, negative, forced-error, error). -/
inductive Marca where
  | punto
  | positivo
  | neutro
  | negativo
  | errorForzado
  | error
deriving DecidableEq, Repr

/-- One row of `acciones_new`.  Zones `Z1..Z6`/rotations `P1..P6` are the
numbers 1..6; running scores are optional as in the table. -/
structure Accion where
  id : Nat
  partido_id : Nat
  set_numero : Nat
  jugador_id : Nat
  tipo_accion : Tipo
  marca : Marca
  zona_jugador : Option Nat := none
  zona_colocador : Option Nat := none
  puntos_local : Option Nat := none
  puntos_visitante : Option Nat := none
deriving DecidableEq, Repr

/-- `marca IN ('#','+')`. -/
def esPositiva (m : Marca) : Bool :=
  m == Marca.punto || m == Marca.positivo

/-- `ROUND((x::decimal / y) * 100, 1)`: the share `x / y` as a percentage
rounded to one decimal place.  The one-decimal value is encoded exactly as
an integer count of tenths of a percentage point (`70.0 ↦ 700`,
`-30.0 ↦ -300`); for `y > 0` the result is `⌊x / y * 1000 + 1/2⌋`, rounding
to the nearest tenth with ties upward. -/
def round1 (x : ℤ) (y : ℕ) : ℤ :=
  Int.ediv (2000 * x + y) (2 * y)

/-- `ORDER BY id` as a relation on actions. -/
def ordenId (a b : Accion) : Prop := a.id ≤ b.id

instance : DecidableRel ordenId := fun a b => inferInstanceAs (Decidable (a.id ≤ b.id))

instance : IsTotal Accion ordenId := ⟨fun a b => Nat.le_total a.id b.id⟩

instance : IsTrans Accion ordenId := ⟨fun _ _ _ => Nat.le_trans⟩

/-- Sort a list of actions by `id` ascending (`ORDER BY id`). -/
def ordenarPorId (l : List Accion) : List Accion :=
  List.insertionSort ordenId l

/-- The window pair `LAG(tipo_accion) OVER (ORDER BY id)` and
`LAG(tipo_accion, 2) OVER (ORDER BY id)`: walk the ordered list carrying the
types of the previous and the one-before-previous rows. -/
def conPrevias : Option Tipo → Option Tipo → List Accion →
    List (Accion × Option Tipo × Option Tipo)
  | _, _, [] => []
  | p1, p2, a :: resto => (a, p1, p2) :: conPrevias (some a.tipo_accion) p1 resto

/-- Type of the row at position `j` of an ordered action list. -/
def tipoEn (l : List Accion) (j : Nat) : Option Tipo :=
  (l[j]?).map (·.tipo_accion)

/-- `accion_previa = 'recepción' OR (accion_previa = 'colocación' AND
accion_previa_2 = 'recepción')`. -/
def patronSideout (p1 p2 : Option Tipo) : Bool :=
  p1 == some Tipo.recepcion ||
    (p1 == some Tipo.colocacion && p2 == some Tipo.recepcion)

/-- `accion_previa = 'defensa' OR (accion_previa = 'colocación' AND
accion_previa_2 = 'defensa')`. -/
def patronContraataque (p1 p2 : Option Tipo) : Bool :=
  p1 == some Tipo.defensa ||
    (p1 == some Tipo.colocacion && p2 == some Tipo.defensa)

theorem length_conPrevias (p1 p2 : Option Tipo) (l : List Accion) :
    (conPrevias p1 p2 l).length = l.length := by
  induction l generalizing p1 p2 with
  | nil => rfl
  | cons a resto ih => simp [conPrevias, ih]

theorem conPrevias_getElem (l : List Accion) (p1 p2 : Option Tipo) (i : Nat)
    (a : Accion) (h : l[i]? = some a) :
    (conPrevias p1 p2 l)[i]? =
      some (a, (if i = 0 then p1 else tipoEn l (i - 1)),
        (if i = 0 then p2 else if i = 1 then p1 else tipoEn l (i - 2))) := by
  induction l generalizing p1 p2 i a with
  | nil => simp at h
  | cons b resto ih =>
    cases i with
    | zero =>
      simp only [List.getElem?_cons_zero, Option.some.injEq] at h
      subst h
      simp [conPrevias]
    | succ j =>
      simp only [List.getElem?_cons_succ] at h
      have hrec := ih (some b.tipo_accion) p1 j a h
      simp only [conPrevias, List.getElem?_cons_succ]
      rw [hrec]
      cases j with
      | zero =>
        simp [tipoEn]
      | succ k =>
        cases k with
        | zero =>
          simp [tipoEn]
        | succ m =>
          simp [tipoEn, Nat.succ_sub_one]

/-- `ORDER BY tipo_accion`: the six type names in the alphabetical order of
their Spanish spellings (`atacar, bloqueo, colocación, defensa, recepción,
saque`). -/
def tiposOrden : List Tipo :=
  [Tipo.atacar, Tipo.bloqueo, Tipo.colocacion, Tipo.defensa,
    Tipo.recepcion, Tipo.saque]

/-- Marks of the actions of one `GROUP BY tipo_accion` group. -/
def marcasDe (acciones : List Accion) (t : Tipo) : List Marca :=
  (acciones.filter (fun a => a.tipo_accion == t)).map (·.marca)

/-- One output row of `obtener_resumen_acciones`. -/
structure FilaResumen where
  tipo_accion : Tipo
  total : Nat
  puntos : Nat
  positivos : Nat
  neutros : Nat
  negativos : Nat
  errores_forzados : Nat
  errores : Nat
  eficacia : ℤ
  eficiencia : ℤ
deriving DecidableEq, Repr

/-- The aggregate row of `obtener_resumen_acciones` for one action type:
per-mark counts, then `eficacia = (puntos + positivos) / total * 100` and
`eficiencia = (puntos - errores) / total * 100`, both rounded to one
decimal. -/
def filaResumen (acciones : List Accion) (t : Tipo) : FilaResumen :=
  let ms := marcasDe acciones t
  { tipo_accion := t
    total := ms.length
    puntos := ms.count Marca.punto
    positivos := ms.count Marca.positivo
    neutros := ms.count Marca.neutro
    negativos := ms.count Marca.negativo
    errores_forzados := ms.count Marca.errorForzado
    errores := ms.count Marca.error
    eficacia :=
      round1 ((ms.count Marca.punto : ℤ) + ms.count Marca.positivo) ms.length
    eficiencia :=
      round1 ((ms.count Marca.punto : ℤ) - ms.count Marca.error) ms.length }

/-- `obtener_resumen_acciones(partido_id)`: group the match's actions by
type (`GROUP BY` emits one row per type actually present, in
`ORDER BY tipo_accion` order) and compute the per-type metric columns. -/
def obtener_resumen_acciones (partido_id : Nat) (acciones : List Accion) :
    List FilaResumen :=
  let propias := acciones.filter (fun a => a.partido_id == partido_id)
  (tiposOrden.filter (fun t => !(marcasDe propias t).isEmpty)).map
    (filaResumen propias)

/-- `tipo_accion IN ('atacar', 'recepción', 'saque', 'bloqueo')`. -/
def esTipoEquipo (t : Tipo) : Bool :=
  t == Tipo.atacar || t == Tipo.recepcion || t == Tipo.saque ||
    t == Tipo.bloqueo

/-- One output row of `obtener_media_equipo`. -/
structure FilaMedia where
  tipo_accion : Tipo
  eficacia_media : ℤ
  eficiencia_media : ℤ
deriving DecidableEq, Repr

/-- `obtener_media_equipo(partido_ids)`: team averages per action type over
the selected matches, restricted to the four team action types; `GROUP BY`
emits a row only for types with at least one action, and the divisions are
`NULLIF`-guarded. -/
def obtener_media_equipo (partido_ids : List Nat) (acciones : List Accion) :
    List FilaMedia :=
  let base := acciones.filter
    (fun a => decide (a.partido_id ∈ partido_ids) && esTipoEquipo a.tipo_accion)
  (tiposOrden.filter (fun t => esTipoEquipo t && !(marcasDe base t).isEmpty)).map
    (fun t =>
      let ms := marcasDe base t
      { tipo_accion := t
        eficacia_media := round1 (ms.countP esPositiva : ℤ) ms.length
        eficiencia_media :=
          round1 ((ms.count Marca.punto : ℤ) - ms.count Marca.error)
            ms.length })

/-- One row of the score-carrying query of `obtener_momentos_criticos`
(actions whose `puntos_local`/`puntos_visitante` are both non-null). -/
structure FilaMomento where
  set_numero : Nat
  puntos_local : Nat
  puntos_visitante : Nat
  tipo_accion : Tipo
  marca : Marca
deriving DecidableEq, Repr

/-- `ABS(puntos_local - puntos_visitante)`. -/
def diferencia (f : FilaMomento) : Nat :=
  max f.puntos_local f.puntos_visitante - min f.puntos_local f.puntos_visitante

/-- `GREATEST(puntos_local, puntos_visitante)`. -/
def puntoMayor (f : FilaMomento) : Nat :=
  max f.puntos_local f.puntos_visitante

/-- The stats dictionary built by `calcular_stats`. -/
structure StatsMomento where
  eficacia_ataque : ℤ
  puntos_ataque : Nat
  total_ataques : Nat
  eficacia_recepcion : ℤ
  total_recepciones : Nat
  eficacia_saque : ℤ
  puntos_saque : Nat
  total_saques : Nat
  eficacia_bloqueo : ℤ
  puntos_bloqueo : Nat
  total_bloqueos : Nat
  errores : Nat
  puntos_directos : Nat
deriving DecidableEq, Repr

/-- Rounded share of `#`/`+` marks in a group (`round(... * 100, 1)`). -/
def eficaciaDe (g : List FilaMomento) : ℤ :=
  round1 ((g.filter (fun f => esPositiva f.marca)).length : ℤ) g.length

/-- `calcular_stats` (inner function of `obtener_momentos_criticos`): per
action type, efficacy and counts when the type's group is non-empty, and the
number `0` in every field otherwise; plus combined errors and direct
points. -/
def calcular_stats (fs : List FilaMomento) : StatsMomento :=
  let ataque := fs.filter (fun f => f.tipo_accion == Tipo.atacar)
  let recepcion := fs.filter (fun f => f.tipo_accion == Tipo.recepcion)
  let saque := fs.filter (fun f => f.tipo_accion == Tipo.saque)
  let bloqueo := fs.filter (fun f => f.tipo_accion == Tipo.bloqueo)
  let puntosAtaque :=
    if 0 < ataque.length then
      (ataque.filter (fun f => f.marca == Marca.punto)).length
    else 0
  let puntosSaque :=
    if 0 < saque.length then
      (saque.filter (fun f => f.marca == Marca.punto)).length
    else 0
  let puntosBloqueo :=
    if 0 < bloqueo.length then
      (bloqueo.filter (fun f => f.marca == Marca.punto)).length
    else 0
  { eficacia_ataque := if 0 < ataque.length then eficaciaDe ataque else 0
    puntos_ataque := puntosAtaque
    total_ataques := if 0 < ataque.length then ataque.length else 0
    eficacia_recepcion := if 0 < recepcion.length then eficaciaDe recepcion else 0
    total_recepciones := if 0 < recepcion.length then recepcion.length else 0
    eficacia_saque := if 0 < saque.length then eficaciaDe saque else 0
    puntos_saque := puntosSaque
    total_saques := if 0 < saque.length then saque.length else 0
    eficacia_bloqueo := if 0 < bloqueo.length then eficaciaDe bloqueo else 0
    puntos_bloqueo := puntosBloqueo
    total_bloqueos := if 0 < bloqueo.length then bloqueo.length else 0
    errores :=
      (fs.filter (fun f =>
        (f.tipo_accion == Tipo.atacar || f.tipo_accion == Tipo.saque ||
          f.tipo_accion == Tipo.recepcion) && f.marca == Marca.error)).length
    puntos_directos := puntosAtaque + puntosSaque + puntosBloqueo }

/-- Qualifying rows of `obtener_momentos_criticos`: actions of the selected
matches whose two running scores are non-null. -/
def filasMomento (partido_ids : List Nat) (acciones : List Accion) :
    List FilaMomento :=
  acciones.filterMap (fun a =>
    match a.puntos_local, a.puntos_visitante with
    | some pl, some pv =>
      if a.partido_id ∈ partido_ids then
        some ⟨a.set_numero, pl, pv, a.tipo_accion, a.marca⟩
      else none
    | _, _ => none)

/-- `df[(df['diferencia'] <= 2) & (df['punto_mayor'] >= 18)]`. -/
def filasAjustados (fs : List FilaMomento) : List FilaMomento :=
  fs.filter (fun f => decide (diferencia f ≤ 2) && decide (18 ≤ puntoMayor f))

/-- `df[df['punto_mayor'] >= 20]`. -/
def filasFinalSet (fs : List FilaMomento) : List FilaMomento :=
  fs.filter (fun f => decide (20 ≤ puntoMayor f))

/-- `df[df['punto_mayor'] <= 5]`. -/
def filasInicioSet (fs : List FilaMomento) : List FilaMomento :=
  fs.filter (fun f => decide (puntoMayor f ≤ 5))

/-- The `resultados` dictionary of `obtener_momentos_criticos`: each
score-state bucket appears only when non-empty; `general` always. -/
structure MomentosCriticos where
  ajustados : Option StatsMomento
  final_set : Option StatsMomento
  inicio_set : Option StatsMomento
  general : StatsMomento
deriving DecidableEq, Repr

/-- `obtener_momentos_criticos(partido_ids)`: `none` when no action carries
both scores (the source returns an empty frame and dictionary), else the
qualifying rows together with the per-bucket stats. -/
def obtener_momentos_criticos (partido_ids : List Nat)
    (acciones : List Accion) : Option (List FilaMomento × MomentosCriticos) :=
  let fs := filasMomento partido_ids acciones
  if fs.isEmpty then none
  else some (fs,
    { ajustados :=
        if (filasAjustados fs).isEmpty then none
        else some (calcular_stats (filasAjustados fs))
      final_set :=
        if (filasFinalSet fs).isEmpty then none
        else some (calcular_stats (filasFinalSet fs))
      inicio_set :=
        if (filasInicioSet fs).isEmpty then none
        else some (calcular_stats (filasInicioSet fs))
      general := calcular_stats fs })

/-- The single result row of `obtener_sideout_por_set`: six filtered
counts over the lagged rows. -/
structure SideoutSet where
  total_sideout : Nat
  sideout_positivo : Nat
  sideout_puntos : Nat
  total_contraataque : Nat
  contraataque_positivo : Nat
  contraataque_puntos : Nat
deriving DecidableEq, Repr

/-- `tipo_accion = 'atacar'` on a lagged row. -/
def filaAtaque (x : Accion × Option Tipo × Option Tipo) : Bool :=
  x.1.tipo_accion == Tipo.atacar

/-- The side-out filter of `obtener_sideout_por_set`. -/
def filaSideout (x : Accion × Option Tipo × Option Tipo) : Bool :=
  filaAtaque x && patronSideout x.2.1 x.2.2

/-- The counter-attack filter of `obtener_sideout_por_set`. -/
def filaContraataque (x : Accion × Option Tipo × Option Tipo) : Bool :=
  filaAtaque x && patronContraataque x.2.1 x.2.2

/-- The lagged sequence of `obtener_sideout_por_set`: all actions of the
selected matches in the given set, ordered by `id` — the `LAG` window is
`OVER (ORDER BY id)` with NO `PARTITION BY partido_id`, so the walk runs
across match boundaries. -/
def secuenciaPorSet (partido_ids : List Nat) (set_numero : Nat)
    (acciones : List Accion) : List (Accion × Option Tipo × Option Tipo) :=
  conPrevias none none (ordenarPorId (acciones.filter
    (fun a => decide (a.partido_id ∈ partido_ids) &&
      a.set_numero == set_numero)))

/-- `obtener_sideout_por_set(partido_ids, set_numero)`. -/
def obtener_sideout_por_set (partido_ids : List Nat) (set_numero : Nat)
    (acciones : List Accion) : SideoutSet :=
  let o := secuenciaPorSet partido_ids set_numero acciones
  { total_sideout := (o.filter filaSideout).length
    sideout_positivo :=
      (o.filter (fun x => filaSideout x && esPositiva x.1.marca)).length
    sideout_puntos :=
      (o.filter (fun x => filaSideout x && x.1.marca == Marca.punto)).length
    total_contraataque := (o.filter filaContraataque).length
    contraataque_positivo :=
      (o.filter (fun x => filaContraataque x && esPositiva x.1.marca)).length
    contraataque_puntos :=
      (o.filter (fun x => filaContraataque x && x.1.marca == Marca.punto)).length }

/-- Phase label of the `CASE` expression of `obtener_sideout_contraataque`. -/
inductive Fase where
  | sideOut
  | contraataque
deriving DecidableEq, Repr

/-- `tipo_accion IN ('recepción', 'atacar', 'colocación')`: the narrowing
applied by `obtener_sideout_contraataque` before its window is computed. -/
def tresTipos (t : Tipo) : Bool :=
  t == Tipo.recepcion || t == Tipo.atacar || t == Tipo.colocacion

/-- One match partition of `obtener_sideout_contraataque`: the match's
actions restricted to the three lookback types and ordered by `id`
(`LAG ... OVER (PARTITION BY partido_id ORDER BY id)` after the type
filter). -/
def particionSC (partido_ids : List Nat) (acciones : List Accion)
    (pid : Nat) : List Accion :=
  ordenarPorId (acciones.filter (fun a =>
    a.partido_id == pid && decide (a.partido_id ∈ partido_ids) &&
      tresTipos a.tipo_accion))

/-- The `CASE` of `obtener_sideout_contraataque`: an attack matching the
side-out pattern is `Side-out`; EVERY other attack is `Contraatac`;
non-attacks get `NULL`. -/
def etiqueta (x : Accion × Option Tipo × Option Tipo) : Option Fase :=
  if x.1.tipo_accion == Tipo.atacar then
    if patronSideout x.2.1 x.2.2 then some Fase.sideOut
    else some Fase.contraataque
  else none

/-- Lagged rows of one match partition paired with their `CASE` label. -/
def etiquetasPartido (l : List Accion) :
    List (Accion × Option Fase) :=
  (conPrevias none none l).map (fun x => (x.1, etiqueta x))

/-- `ataques_clasificados` of `obtener_sideout_contraataque` for one match
partition: the labelled attacks. -/
def clasificarPartido (l : List Accion) : List (Accion × Fase) :=
  (etiquetasPartido l).filterMap (fun x => x.2.map (fun f => (x.1, f)))

/-- `obtener_sideout_contraataque(partido_ids)` at the classification
stage: each selected match is partitioned, narrowed to the three lookback
types, ordered by `id`, and every attack is labelled by the `CASE`. -/
def obtener_sideout_contraataque (partido_ids : List Nat)
    (acciones : List Accion) : List (Accion × Fase) :=
  partido_ids.dedup.flatMap
    (fun pid => clasificarPartido (particionSC partido_ids acciones pid))

/-- One output row of the final `GROUP BY fase` of
`obtener_sideout_contraataque`. -/
structure FilaFase where
  fase : Fase
  total : Nat
  eficacia : ℤ
  eficiencia : ℤ
deriving DecidableEq, Repr

/-- The final aggregate of `obtener_sideout_contraataque`: one row per
non-empty phase (`ORDER BY fase DESC` puts `Side-out` first). -/
def resumenSideoutContraataque (partido_ids : List Nat)
    (acciones : List Accion) : List FilaFase :=
  let cls := obtener_sideout_contraataque partido_ids acciones
  ([Fase.sideOut, Fase.contraataque].filter
    (fun f => !(cls.filter (fun x => x.2 == f)).isEmpty)).map (fun f =>
      let ms := (cls.filter (fun x => x.2 == f)).map (·.1.marca)
      { fase := f
        total := ms.length
        eficacia := round1 (ms.countP esPositiva : ℤ) ms.length
        eficiencia :=
          round1 ((ms.count Marca.punto : ℤ) - ms.count Marca.error)
            ms.length })

/-- One match's full lagged sequence in `obtener_sideout_por_partido`:
`LAG ... OVER (PARTITION BY p.id ORDER BY a.id)` with NO restriction of the
action types entering the window. -/
def secuenciaPartido (acciones : List Accion) (pid : Nat) :
    List (Accion × Option Tipo × Option Tipo) :=
  conPrevias none none
    (ordenarPorId (acciones.filter (fun a => a.partido_id == pid)))

/-- `total_sideout` of one match in `obtener_sideout_por_partido`. -/
def sideoutDelPartido (acciones : List Accion) (pid : Nat) : Nat :=
  ((secuenciaPartido acciones pid).filter filaSideout).length

/-- `sideout_positivo` of one match in `obtener_sideout_por_partido`. -/
def sideoutPositivoDelPartido (acciones : List Accion) (pid : Nat) : Nat :=
  ((secuenciaPartido acciones pid).filter
    (fun x => filaSideout x && esPositiva x.1.marca)).length

/-- One output row of `obtener_sideout_por_partido`:
`COALESCE(total, 0)` and a `NULLIF`-guarded efficacy. -/
structure FilaSideoutPartido where
  partido_id : Nat
  total_sideout : Nat
  eficacia_sideout : Option ℤ
deriving DecidableEq, Repr

/-- `obtener_sideout_por_partido`: one row per selected match. -/
def obtener_sideout_por_partido (partidos : List Nat)
    (acciones : List Accion) : List FilaSideoutPartido :=
  partidos.map (fun pid =>
    let t := sideoutDelPartido acciones pid
    { partido_id := pid
      total_sideout := t
      eficacia_sideout :=
        if t = 0 then none
        else some (round1 (sideoutPositivoDelPartido acciones pid : ℤ) t) })

/-- Qualifying attacks of `obtener_distribucion_por_rotacion`: attacks of
the selected matches with non-null `zona_jugador` AND `zona_colocador`. -/
def ataquesConZona (partido_ids : List Nat) (acciones : List Accion) :
    List Accion :=
  acciones.filter (fun a =>
    decide (a.partido_id ∈ partido_ids) && a.tipo_accion == Tipo.atacar &&
      a.zona_jugador.isSome && a.zona_colocador.isSome)

/-- The `(zona_colocador, zona_jugador)` keys present among the qualifying
attacks — `GROUP BY zona_colocador, zona_jugador` yields exactly these. -/
def clavesRotZona (l : List Accion) : List (Nat × Nat) :=
  (l.filterMap (fun a =>
    match a.zona_colocador, a.zona_jugador with
    | some r, some z => some (r, z)
    | _, _ => none)).dedup

/-- One output row of `obtener_distribucion_por_rotacion`. -/
structure FilaRotacion where
  rotacion : Nat
  zona : Nat
  colocaciones : Nat
  eficacia : ℤ
  puntos : Nat
deriving DecidableEq, Repr

/-- `obtener_distribucion_por_rotacion(partido_ids)`: one aggregate row per
`(rotation, zone)` pair actually present among the qualifying attacks. -/
def obtener_distribucion_por_rotacion (partido_ids : List Nat)
    (acciones : List Accion) : List FilaRotacion :=
  let sel := ataquesConZona partido_ids acciones
  (clavesRotZona sel).map (fun k =>
    let g := sel.filter (fun a =>
      a.zona_colocador == some k.1 && a.zona_jugador == some k.2)
    { rotacion := k.1
      zona := k.2
      colocaciones := g.length
      eficacia :=
        round1 ((g.filter (fun a => esPositiva a.marca)).length : ℤ) g.length
      puntos := (g.filter (fun a => a.marca == Marca.punto)).length })

/-- Per-player aggregate used by the ranking and badge queries. -/
structure StatJugador where
  jugador_id : Nat
  total : Nat
  eficacia : ℤ
deriving DecidableEq, Repr

/-- Distinct player ids of a list of actions (`GROUP BY` player keys). -/
def jugadoresDe (acciones : List Accion) : List Nat :=
  (acciones.map (·.jugador_id)).dedup

/-- The group of actions of one player inside a pre-filtered selection. -/
def grupoJugador (sel : List Accion) (j : Nat) : List Accion :=
  sel.filter (fun a => a.jugador_id == j)

/-- The aggregate row of one player over a selection: `COUNT(*)` and
rounded efficacy. -/
def statDe (sel : List Accion) (j : Nat) : StatJugador :=
  { jugador_id := j
    total := (grupoJugador sel j).length
    eficacia :=
      round1 (((grupoJugador sel j).filter
        (fun a => esPositiva a.marca)).length : ℤ)
        (grupoJugador sel j).length }

/-- Per-player `COUNT(*)` and rounded efficacy over a selection
(`GROUP BY` player of the selection). -/
def statsPorJugador (sel : List Accion) : List StatJugador :=
  (jugadoresDe sel).map (statDe sel)

/-- `ORDER BY eficacia DESC` on per-player aggregates. -/
def ordenEficacia (a b : StatJugador) : Prop := b.eficacia ≤ a.eficacia

instance : DecidableRel ordenEficacia :=
  fun a b => inferInstanceAs (Decidable (b.eficacia ≤ a.eficacia))

instance : IsTotal StatJugador ordenEficacia := ⟨fun a b => le_total b.eficacia a.eficacia⟩

instance : IsTrans StatJugador ordenEficacia :=
  ⟨fun _ _ _ h1 h2 => le_trans h2 h1⟩

/-- One output row of `obtener_ranking_equipo`. -/
structure FilaRanking where
  jugador_id : Nat
  total : Nat
  eficacia : ℤ
  ranking : Nat
deriving DecidableEq, Repr

/-- `df['ranking'] = range(1, len(df) + 1)`: attach 1-based positions to
the sorted rows. -/
def asignarRanking : Nat → List StatJugador → List FilaRanking
  | _, [] => []
  | n, s :: ss =>
    { jugador_id := s.jugador_id, total := s.total, eficacia := s.eficacia,
      ranking := n } :: asignarRanking (n + 1) ss

/-- The selection of `obtener_ranking_equipo`: actions of the requested
type in the selected matches. -/
def seleccionRanking (partido_ids : List Nat) (t : Tipo)
    (acciones : List Accion) : List Accion :=
  acciones.filter (fun a =>
    decide (a.partido_id ∈ partido_ids) && a.tipo_accion == t)

/-- `obtener_ranking_equipo(partido_ids, tipo_accion)`: per-player stats,
`HAVING COUNT(*) >= 5`, `ORDER BY eficacia DESC`, ranks `1..N` assigned in
list order. -/
def obtener_ranking_equipo (partido_ids : List Nat) (t : Tipo)
    (acciones : List Accion) : List FilaRanking :=
  asignarRanking 1 (List.insertionSort ordenEficacia
    ((statsPorJugador (seleccionRanking partido_ids t acciones)).filter
      (fun s => decide (5 ≤ s.total))))

/-- One row of `partidos_new` as the badge loop consumes it: the match id
and its (possibly null) date, encoded as a day number. -/
structure Partido where
  id : Nat
  fecha : Option Nat
deriving DecidableEq, Repr

/-- The six badge rules of `obtener_badges_equipo`. -/
inductive Logro where
  | mejorAtacante
  | maquinaAces
  | diezPuntos
  | partidoPerfecto
  | muro
  | recepcionOro
deriving DecidableEq, Repr

/-- One badge record; the awarded player (named in the source's description
string) is carried as `jugador_id`. -/
structure Badge where
  logro : Logro
  jugador_id : Nat
  fecha : Option Nat
  partido_id : Nat
deriving DecidableEq, Repr

/-- All actions of one match. -/
def accionesPartido (acciones : List Accion) (pid : Nat) : List Accion :=
  acciones.filter (fun a => a.partido_id == pid)

/-- A per-player `COUNT(*)` aggregate. -/
structure ConteoJugador where
  jugador_id : Nat
  conteo : Nat
deriving DecidableEq, Repr

/-- Per-player counts over a selection (`GROUP BY` player, `COUNT(*)`). -/
def conteosPorJugador (sel : List Accion) : List ConteoJugador :=
  (jugadoresDe sel).map (fun j => ⟨j, (grupoJugador sel j).length⟩)

/-- `ORDER BY COUNT(*) DESC` on per-player counts. -/
def ordenConteo (a b : ConteoJugador) : Prop := b.conteo ≤ a.conteo

instance : DecidableRel ordenConteo :=
  fun a b => inferInstanceAs (Decidable (b.conteo ≤ a.conteo))

instance : IsTotal ConteoJugador ordenConteo := ⟨fun a b => Nat.le_total b.conteo a.conteo⟩

instance : IsTrans ConteoJugador ordenConteo :=
  ⟨fun _ _ _ h1 h2 => Nat.le_trans h2 h1⟩

/-- A count-thresholded `LIMIT 1` rule (aces, ten-plus points, wall):
per-player counts of the selected actions, `HAVING COUNT(*) >= minimo`,
`ORDER BY COUNT(*) DESC LIMIT 1`. -/
def recordConteo (sel : List Accion) (minimo : Nat) : Option ConteoJugador :=
  (List.insertionSort ordenConteo
    ((conteosPorJugador sel).filter (fun c => decide (minimo ≤ c.conteo)))).head?

/-- An efficacy-thresholded `LIMIT 1` rule (best attacker, golden
reception): per-player stats, `HAVING COUNT(*) >= minimo`,
`ORDER BY eficacia DESC LIMIT 1`, then the Python truthiness test
`row[2] and row[2] >= umbral`. -/
def recordEficacia (sel : List Accion) (minimo : Nat) (umbral : ℤ) :
    Option StatJugador :=
  match (List.insertionSort ordenEficacia
    ((statsPorJugador sel).filter (fun s => decide (minimo ≤ s.total)))).head? with
  | some s => if !(s.eficacia == 0) && decide (umbral ≤ s.eficacia) then some s else none
  | none => none

/-- `a.tipo_accion = 'saque' AND a.marca = '#'`. -/
def esAce (a : Accion) : Bool :=
  a.tipo_accion == Tipo.saque && a.marca == Marca.punto

/-- `a.tipo_accion IN ('atacar','saque','bloqueo') AND a.marca = '#'`. -/
def esPuntoDirecto (a : Accion) : Bool :=
  (a.tipo_accion == Tipo.atacar || a.tipo_accion == Tipo.saque ||
    a.tipo_accion == Tipo.bloqueo) && a.marca == Marca.punto

/-- `a.tipo_accion = 'bloqueo' AND a.marca = '#'`. -/
def esBloqueoPunto (a : Accion) : Bool :=
  a.tipo_accion == Tipo.bloqueo && a.marca == Marca.punto

/-- The players awarded `Partit Perfecte` in one match:
`HAVING COUNT(*) >= 10 AND COUNT(*) FILTER (WHERE marca = '=') = 0`,
fetched with `fetchall` (every qualifying player). -/
def jugadoresPerfectos (todas : List Accion) : List Nat :=
  (jugadoresDe todas).filter (fun j =>
    decide (10 ≤ (grupoJugador todas j).length) &&
      ((grupoJugador todas j).filter (fun a => a.marca == Marca.error)).isEmpty)

/-- The badges one match contributes, in the source's evaluation order.
The efficacy thresholds `>= 50` and `>= 60` percent are `500` and `600` in
the tenths encoding of `round1`. -/
def badgesDePartido (acciones : List Accion) (p : Partido) : List Badge :=
  let todas := accionesPartido acciones p.id
  let mejor :=
    match recordEficacia (todas.filter (fun a => a.tipo_accion == Tipo.atacar))
        5 500 with
    | some s => [⟨Logro.mejorAtacante, s.jugador_id, p.fecha, p.id⟩]
    | none => []
  let aces :=
    match recordConteo (todas.filter esAce) 3 with
    | some c => [⟨Logro.maquinaAces, c.jugador_id, p.fecha, p.id⟩]
    | none => []
  let diez :=
    match recordConteo (todas.filter esPuntoDirecto) 10 with
    | some c => [⟨Logro.diezPuntos, c.jugador_id, p.fecha, p.id⟩]
    | none => []
  let perfectos := (jugadoresPerfectos todas).map
    (fun j => (⟨Logro.partidoPerfecto, j, p.fecha, p.id⟩ : Badge))
  let muro :=
    match recordConteo (todas.filter esBloqueoPunto) 3 with
    | some c => [⟨Logro.muro, c.jugador_id, p.fecha, p.id⟩]
    | none => []
  let oro :=
    match recordEficacia
        (todas.filter (fun a => a.tipo_accion == Tipo.recepcion)) 10 600 with
    | some s => [⟨Logro.recepcionOro, s.jugador_id, p.fecha, p.id⟩]
    | none => []
  mejor ++ aces ++ diez ++ perfectos ++ muro ++ oro

/-- The sort key of the final `badges.sort`: the badge's date, with a null
date replaced by `date.min` (encoded as day `0`). -/
def claveFecha (b : Badge) : Nat :=
  b.fecha.getD 0

/-- The descending-by-date order of the final `badges.sort(...,
reverse=True)`. -/
def ordenFecha (a b : Badge) : Prop := claveFecha b ≤ claveFecha a

instance : DecidableRel ordenFecha :=
  fun a b => inferInstanceAs (Decidable (claveFecha b ≤ claveFecha a))

instance : IsTotal Badge ordenFecha := ⟨fun a b => Nat.le_total (claveFecha b) (claveFecha a)⟩

instance : IsTrans Badge ordenFecha :=
  ⟨fun _ _ _ h1 h2 => Nat.le_trans h2 h1⟩

/-- `obtener_badges_equipo`: evaluate the six rules for every match, then
sort the collected badges by date, most recent first, before returning. -/
def obtener_badges_equipo (partidos : List Partido)
    (acciones : List Accion) : List Badge :=
  List.insertionSort ordenFecha
    (partidos.flatMap (badgesDePartido acciones))

/-! ### Example inputs used by witnesses and counterexamples -/

/-- A single attack scored `#` in match 1. -/
def ejAtaquePunto : Accion :=
  { id := 1, partido_id := 1, set_numero := 1, jugador_id := 7,
    tipo_accion := Tipo.atacar, marca := Marca.punto }

/-! ### Claim theorems -/

/-- Claim C5: for every non-empty group of `obtener_resumen_acciones`, the
output row's `total` is the group size, `puntos`/`positivos`/`errores` (and
the other mark columns) are the per-mark counts of the group, and
`eficacia = (puntos + positivos) / total * 100`,
`eficiencia = (puntos - errores) / total * 100`, each rounded to one
decimal. -/
theorem resumen_acciones_metricas (pid : Nat) (acciones : List Accion)
    (r : FilaResumen) (hr : r ∈ obtener_resumen_acciones pid acciones) :
    r.total =
      (marcasDe (acciones.filter (fun a => a.partido_id == pid))
        r.tipo_accion).length ∧
    r.puntos =
      (marcasDe (acciones.filter (fun a => a.partido_id == pid))
        r.tipo_accion).count Marca.punto ∧
    r.positivos =
      (marcasDe (acciones.filter (fun a => a.partido_id == pid))
        r.tipo_accion).count Marca.positivo ∧
    r.errores =
      (marcasDe (acciones.filter (fun a => a.partido_id == pid))
        r.tipo_accion).count Marca.error ∧
    r.total ≠ 0 ∧
    r.eficacia = round1 ((r.puntos : ℤ) + r.positivos) r.total ∧
    r.eficiencia = round1 ((r.puntos : ℤ) - r.errores) r.total := by
  unfold obtener_resumen_acciones at hr
  simp only [List.mem_map, List.mem_filter] at hr
  obtain ⟨t, ⟨_, ht⟩, rfl⟩ := hr
  refine ⟨rfl, rfl, rfl, rfl, ?_, rfl, rfl⟩
  simp only [Bool.not_eq_eq_eq_not, Bool.not_false] at ht
  simpa [filaResumen, List.isEmpty_iff, List.length_eq_zero] using ht

/-- The row this single attack produces: `total = 1`, `puntos = 1`,
efficacy and efficiency both `100.0` percent (`1000` tenths). -/
def filaAtaquePunto : FilaResumen :=
  { tipo_accion := Tipo.atacar, total := 1, puntos := 1, positivos := 0,
    neutros := 0, negativos := 0, errores_forzados := 0, errores := 0,
    eficacia := 1000, eficiencia := 1000 }

/-- Witness for C5: a single `#` attack in match 1 yields the row with
`total = 1`, `puntos = 1`, `eficacia = 100.0`, `eficiencia = 100.0`. -/
theorem resumen_acciones_metricas_witness :
    filaAtaquePunto.total =
      (marcasDe ([ejAtaquePunto].filter (fun a => a.partido_id == 1))
        filaAtaquePunto.tipo_accion).length ∧
    filaAtaquePunto.puntos =
      (marcasDe ([ejAtaquePunto].filter (fun a => a.partido_id == 1))
        filaAtaquePunto.tipo_accion).count Marca.punto ∧
    filaAtaquePunto.positivos =
      (marcasDe ([ejAtaquePunto].filter (fun a => a.partido_id == 1))
        filaAtaquePunto.tipo_accion).count Marca.positivo ∧
    filaAtaquePunto.errores =
      (marcasDe ([ejAtaquePunto].filter (fun a => a.partido_id == 1))
        filaAtaquePunto.tipo_accion).count Marca.error ∧
    filaAtaquePunto.total ≠ 0 ∧
    filaAtaquePunto.eficacia =
      round1 ((filaAtaquePunto.puntos : ℤ) + filaAtaquePunto.positivos)
        filaAtaquePunto.total ∧
    filaAtaquePunto.eficiencia =
      round1 ((filaAtaquePunto.puntos : ℤ) - filaAtaquePunto.errores)
        filaAtaquePunto.total :=
  resumen_acciones_metricas 1 [ejAtaquePunto] filaAtaquePunto (by decide)

/-- An attack scored `#` at running score 20–19 of match 1. -/
def ejAtaqueClutch : Accion :=
  { id := 1, partido_id := 1, set_numero := 3, jugador_id := 7,
    tipo_accion := Tipo.atacar, marca := Marca.punto,
    puntos_local := some 20, puntos_visitante := some 19 }

/-- The momento row of `ejAtaqueClutch`. -/
def filaClutch : FilaMomento :=
  ⟨3, 20, 19, Tipo.atacar, Marca.punto⟩

/-- Claim C8: a qualifying action (non-null scores) lands in `inicio_set`
iff the leading score is at most 5, in `ajustados` iff the absolute score
difference is at most 2 and the leading score is at least 18, in
`final_set` iff the leading score is at least 20 — the buckets are
independent filters, so they can overlap — and the `general` baseline is
always computed over all qualifying rows. -/
theorem momentos_criticos_buckets (ids : List Nat) (acciones : List Accion)
    (f : FilaMomento) (hf : f ∈ filasMomento ids acciones) :
    (f ∈ filasInicioSet (filasMomento ids acciones) ↔ puntoMayor f ≤ 5) ∧
    (f ∈ filasAjustados (filasMomento ids acciones) ↔
      diferencia f ≤ 2 ∧ 18 ≤ puntoMayor f) ∧
    (f ∈ filasFinalSet (filasMomento ids acciones) ↔ 20 ≤ puntoMayor f) ∧
    (obtener_momentos_criticos ids acciones).map (·.1) =
      some (filasMomento ids acciones) ∧
    (obtener_momentos_criticos ids acciones).map (fun x => x.2.general) =
      some (calcular_stats (filasMomento ids acciones)) := by
  have hne : (filasMomento ids acciones).isEmpty = false := by
    cases h : (filasMomento ids acciones).isEmpty
    · rfl
    · rw [List.isEmpty_iff] at h
      rw [h] at hf
      simp at hf
  refine ⟨?_, ?_, ?_, ?_, ?_⟩
  · simp [filasInicioSet, List.mem_filter, hf]
  · simp [filasAjustados, List.mem_filter, hf]
  · simp [filasFinalSet, List.mem_filter, hf]
  · unfold obtener_momentos_criticos
    simp [hne]
  · unfold obtener_momentos_criticos
    simp [hne]

/-- Witness for C8: the attack at 20–19 belongs to both `ajustados`
(difference 1, leader 18 or more) and `final_set` (leader 20), showing the
buckets overlap, and not to `inicio_set`. -/
theorem momentos_criticos_buckets_witness :
    ((filaClutch ∈ filasInicioSet (filasMomento [1] [ejAtaqueClutch]) ↔
        puntoMayor filaClutch ≤ 5) ∧
      (filaClutch ∈ filasAjustados (filasMomento [1] [ejAtaqueClutch]) ↔
        diferencia filaClutch ≤ 2 ∧ 18 ≤ puntoMayor filaClutch) ∧
      (filaClutch ∈ filasFinalSet (filasMomento [1] [ejAtaqueClutch]) ↔
        20 ≤ puntoMayor filaClutch) ∧
      (obtener_momentos_criticos [1] [ejAtaqueClutch]).map (·.1) =
        some (filasMomento [1] [ejAtaqueClutch]) ∧
      (obtener_momentos_criticos [1] [ejAtaqueClutch]).map
          (fun x => x.2.general) =
        some (calcular_stats (filasMomento [1] [ejAtaqueClutch]))) ∧
    filaClutch ∈ filasAjustados (filasMomento [1] [ejAtaqueClutch]) ∧
    filaClutch ∈ filasFinalSet (filasMomento [1] [ejAtaqueClutch]) ∧
    filaClutch ∉ filasInicioSet (filasMomento [1] [ejAtaqueClutch]) :=
  ⟨momentos_criticos_buckets [1] [ejAtaqueClutch] filaClutch (by decide),
    by decide, by decide, by decide⟩

/-- A lone reception row: its bucket has no attack at all. -/
def filaSinAtaques : List FilaMomento :=
  [⟨1, 0, 0, Tipo.recepcion, Marca.positivo⟩]

/-- Counterexample for C3: `calcular_stats` on a bucket with zero attacks
reports `eficacia_ataque` as the NUMBER `0` (its `else` branch), not as a
null/undefined value — the claim's required null report does not happen. -/
theorem calcular_stats_cero_counterexample :
    (calcular_stats filaSinAtaques).total_ataques = 0 ∧
    (calcular_stats filaSinAtaques).eficacia_ataque = 0 := by
  decide

/-- Claim C3 (amended): the SQL aggregations never emit a row for an empty
group (`GROUP BY` omits it, so the `NULLIF` guards never produce a null
efficacy row), and no error is raised anywhere; but the critical-moment
`calcular_stats` reports the number `0` — not null — as the efficacy of an
action type with no actions in the bucket. -/
theorem stats_vacias_reportan_cero (fs : List FilaMomento) (ids : List Nat)
    (acciones : List Accion) (r : FilaMedia)
    (h1 : fs.filter (fun f => f.tipo_accion == Tipo.atacar) = [])
    (h2 : r ∈ obtener_media_equipo ids acciones) :
    ((calcular_stats fs).eficacia_ataque = 0 ∧
      (calcular_stats fs).total_ataques = 0 ∧
      (calcular_stats fs).puntos_ataque = 0) ∧
    (marcasDe (acciones.filter (fun a =>
      decide (a.partido_id ∈ ids) && esTipoEquipo a.tipo_accion))
      r.tipo_accion).length ≠ 0 := by
  constructor
  · unfold calcular_stats
    simp only [h1]
    simp
  · unfold obtener_media_equipo at h2
    simp only [List.mem_map, List.mem_filter] at h2
    obtain ⟨t, ⟨_, ht⟩, rfl⟩ := h2
    simp only [Bool.and_eq_true, Bool.not_eq_eq_eq_not, Bool.not_false] at ht
    simpa [List.isEmpty_iff, List.length_eq_zero] using ht.2

/-- The team-average row produced by a single `#` attack. -/
def filaMediaAtaque : FilaMedia :=
  { tipo_accion := Tipo.atacar, eficacia_media := 1000,
    eficiencia_media := 1000 }

/-- Witness for C3 (amended): the attack-free bucket yields the number `0`,
and the one-attack selection yields a (non-empty) team-average row. -/
theorem stats_vacias_reportan_cero_witness :
    (((calcular_stats filaSinAtaques).eficacia_ataque = 0 ∧
      (calcular_stats filaSinAtaques).total_ataques = 0 ∧
      (calcular_stats filaSinAtaques).puntos_ataque = 0) ∧
    (marcasDe ([ejAtaquePunto].filter (fun a =>
      decide (a.partido_id ∈ [1]) && esTipoEquipo a.tipo_accion))
      filaMediaAtaque.tipo_accion).length ≠ 0) :=
  stats_vacias_reportan_cero filaSinAtaques [1] [ejAtaquePunto]
    filaMediaAtaque (by decide) (by decide)

/-- A lone `#` attack from rotation `P1` to zone `Z1` in match 1. -/
def ejAtaqueZona : Accion :=
  { id := 1, partido_id := 1, set_numero := 1, jugador_id := 7,
    tipo_accion := Tipo.atacar, marca := Marca.punto,
    zona_jugador := some 1, zona_colocador := some 1 }

/-- Counterexample for C9: with qualifying attacks only in rotation `P1`,
the rotation/zone aggregation emits exactly the `P1` row — rotation `P2`
(and the other four) is omitted from the output instead of being reported
with zero counts and null efficacy. -/
theorem rotacion_omitida_counterexample :
    (obtener_distribucion_por_rotacion [1] [ejAtaqueZona]).map
        (·.rotacion) = [1] ∧
    2 ∉ (obtener_distribucion_por_rotacion [1] [ejAtaqueZona]).map
        (·.rotacion) := by
  constructor
  · decide
  · decide

/-- Claim C9 (amended): a rotation appears in the output of
`obtener_distribucion_por_rotacion` exactly when at least one qualifying
attack (non-null zones, selected matches) was set from it; rotations with
zero qualifying attacks are omitted from the result, not reported with
zeros. -/
theorem rotaciones_presentes (partido_ids : List Nat)
    (acciones : List Accion) (r : Nat) :
    r ∈ (obtener_distribucion_por_rotacion partido_ids acciones).map
        (·.rotacion) ↔
      ∃ a ∈ ataquesConZona partido_ids acciones,
        a.zona_colocador = some r := by
  unfold obtener_distribucion_por_rotacion clavesRotZona
  simp only [List.map_map, List.mem_map, List.mem_dedup, List.mem_filterMap]
  constructor
  · rintro ⟨⟨r0, z0⟩, ⟨a, ha, hm⟩, rfl⟩
    refine ⟨a, ha, ?_⟩
    cases hc : a.zona_colocador with
    | none => rw [hc] at hm; simp at hm
    | some r1 =>
      cases hj : a.zona_jugador with
      | none => rw [hc, hj] at hm; simp at hm
      | some z1 =>
        rw [hc, hj] at hm
        simp only [Option.some.injEq, Prod.mk.injEq] at hm
        simp only [Function.comp_apply]
        exact congrArg some hm.1
  · rintro ⟨a, ha, hr⟩
    cases hz : a.zona_jugador with
    | none =>
      exfalso
      unfold ataquesConZona at ha
      simp only [List.mem_filter, Bool.and_eq_true] at ha
      rcases ha with ⟨_, ⟨_, hj⟩, _⟩
      rw [hz] at hj
      simp [Option.isSome] at hj
    | some z =>
      exact ⟨(r, z), ⟨a, ha, by rw [hr, hz]⟩, rfl⟩

/-- Witness for C9 (amended): rotation `P1` is present for the example
attack set from `P1`. -/
theorem rotaciones_presentes_witness :
    1 ∈ (obtener_distribucion_por_rotacion [1] [ejAtaqueZona]).map
        (·.rotacion) :=
  (rotaciones_presentes [1] [ejAtaqueZona] 1).mpr
    ⟨ejAtaqueZona, by decide, by decide⟩

/-- A `+` reception in match 1, the only action of that match. -/
def ejRecepcionPartido1 : Accion :=
  { id := 1, partido_id := 1, set_numero := 1, jugador_id := 4,
    tipo_accion := Tipo.recepcion, marca := Marca.positivo }

/-- A `#` attack in match 2, the only action of that match. -/
def ejAtaquePartido2 : Accion :=
  { id := 2, partido_id := 2, set_numero := 1, jugador_id := 9,
    tipo_accion := Tipo.atacar, marca := Marca.punto }

/-- Claim C2 (failing input): `obtener_sideout_por_set` lays its `LAG`
window `OVER (ORDER BY id)` without `PARTITION BY partido_id`, so when
matches 1 and 2 are selected together, the attack that opens match 2 sees
the reception that ends match 1 as its immediate predecessor and is counted
as a side-out (`total_sideout = 1`), while classifying either match alone
counts zero side-outs — the per-set variant leaks lookback across the
match boundary. -/
theorem sideout_por_set_cruza_partidos :
    (obtener_sideout_por_set [1, 2] 1
      [ejRecepcionPartido1, ejAtaquePartido2]).total_sideout = 1 ∧
    (obtener_sideout_por_set [1] 1
      [ejRecepcionPartido1, ejAtaquePartido2]).total_sideout = 0 ∧
    (obtener_sideout_por_set [2] 1
      [ejRecepcionPartido1, ejAtaquePartido2]).total_sideout = 0 := by
  decide

theorem conPrevias_none_getElem (l : List Accion) (i : Nat) (a : Accion)
    (h : l[i]? = some a) :
    (conPrevias none none l)[i]? =
      some (a, (if i = 0 then none else tipoEn l (i - 1)),
        (if i = 0 then none else if i = 1 then none else tipoEn l (i - 2))) := by
  rw [conPrevias_getElem l none none i a h]

theorem etiquetas_getElem (l : List Accion) (i : Nat) (a : Accion)
    (h : l[i]? = some a) :
    (etiquetasPartido l)[i]? =
      some (a, etiqueta (a, (if i = 0 then none else tipoEn l (i - 1)),
        (if i = 0 then none else if i = 1 then none else tipoEn l (i - 2)))) := by
  unfold etiquetasPartido
  rw [List.getElem?_map, conPrevias_none_getElem l i a h]
  rfl

theorem patronSideout_pos (l : List Accion) (i : Nat) :
    patronSideout (if i = 0 then none else tipoEn l (i - 1))
        (if i = 0 then none else if i = 1 then none else tipoEn l (i - 2)) =
        true ↔
      (1 ≤ i ∧ tipoEn l (i - 1) = some Tipo.recepcion) ∨
      (2 ≤ i ∧ tipoEn l (i - 1) = some Tipo.colocacion ∧
        tipoEn l (i - 2) = some Tipo.recepcion) := by
  rcases i with _ | _ | j
  · simp [patronSideout]
  · simp [patronSideout]
  · simp only [patronSideout, Bool.or_eq_true, Bool.and_eq_true, beq_iff_eq]
    constructor
    · rintro (h | ⟨h1, h2⟩)
      · exact Or.inl ⟨by omega, by simpa using h⟩
      · exact Or.inr ⟨by omega, by simpa using h1, by simpa using h2⟩
    · rintro (⟨_, h⟩ | ⟨_, h1, h2⟩)
      · exact Or.inl (by simpa using h)
      · exact Or.inr ⟨by simpa using h1, by simpa using h2⟩

theorem patronContraataque_pos (l : List Accion) (i : Nat) :
    patronContraataque (if i = 0 then none else tipoEn l (i - 1))
        (if i = 0 then none else if i = 1 then none else tipoEn l (i - 2)) =
        true ↔
      (1 ≤ i ∧ tipoEn l (i - 1) = some Tipo.defensa) ∨
      (2 ≤ i ∧ tipoEn l (i - 1) = some Tipo.colocacion ∧
        tipoEn l (i - 2) = some Tipo.defensa) := by
  rcases i with _ | _ | j
  · simp [patronContraataque]
  · simp [patronContraataque]
  · simp only [patronContraataque, Bool.or_eq_true, Bool.and_eq_true, beq_iff_eq]
    constructor
    · rintro (h | ⟨h1, h2⟩)
      · exact Or.inl ⟨by omega, by simpa using h⟩
      · exact Or.inr ⟨by omega, by simpa using h1, by simpa using h2⟩
    · rintro (⟨_, h⟩ | ⟨_, h1, h2⟩)
      · exact Or.inl (by simpa using h)
      · exact Or.inr ⟨by simpa using h1, by simpa using h2⟩

/-- First of two consecutive attacks in match 1, not preceded by any
defense. -/
def ejAtaqueSeguido1 : Accion :=
  { id := 1, partido_id := 1, set_numero := 1, jugador_id := 7,
    tipo_accion := Tipo.atacar, marca := Marca.negativo }

/-- Second of two consecutive attacks in match 1. -/
def ejAtaqueSeguido2 : Accion :=
  { id := 2, partido_id := 1, set_numero := 1, jugador_id := 8,
    tipo_accion := Tipo.atacar, marca := Marca.negativo }

/-- Counterexample for C1: a match holding two bare attacks and NO defense
at all still produces two `Contraatac` tags in
`obtener_sideout_contraataque` — the `CASE` tags every non-side-out attack
as a counter-attack instead of leaving it unclassified and excluded. -/
theorem contraataque_sin_defensa_counterexample :
    ((obtener_sideout_contraataque [1]
        [ejAtaqueSeguido1, ejAtaqueSeguido2]).filter
      (fun x => x.2 == Fase.contraataque)).length = 2 ∧
    (([ejAtaqueSeguido1, ejAtaqueSeguido2] : List Accion).filter
      (fun a => a.tipo_accion == Tipo.defensa)).length = 0 := by
  decide

/-- Claim C1 (amended): in `obtener_sideout_contraataque` every attack of a
match partition is tagged — `Side-out` or `Contraatac`, never unclassified —
and it is tagged `Contraatac` exactly when it does NOT match the side-out
lookback pattern (the function's window holds only
`{reception, set, attack}`, so a defense can never be the predecessor); in
`obtener_sideout_por_set` an attack is counted as a counter-attack exactly
when, in the set's full action sequence ordered by `id` across the selected
matches, its immediate predecessor is a defense or is a set itself
immediately preceded by a defense, and attacks matching neither pattern are
excluded from both aggregates. -/
theorem contraataque_complemento_sideout (ids : List Nat)
    (acciones : List Accion) (pid : Nat) (i : Nat) (a : Accion)
    (idsSet : List Nat) (n : Nat) (j : Nat) (b : Accion)
    (ha : (particionSC ids acciones pid)[i]? = some a)
    (hat : a.tipo_accion = Tipo.atacar)
    (hb : (ordenarPorId (acciones.filter (fun x =>
      decide (x.partido_id ∈ idsSet) && x.set_numero == n)))[j]? = some b)
    (hbt : b.tipo_accion = Tipo.atacar) :
    ((etiquetasPartido (particionSC ids acciones pid))[i]? =
        some (a, some Fase.contraataque) ↔
      ¬ ((1 ≤ i ∧ tipoEn (particionSC ids acciones pid) (i - 1) =
            some Tipo.recepcion) ∨
        (2 ≤ i ∧ tipoEn (particionSC ids acciones pid) (i - 1) =
            some Tipo.colocacion ∧
          tipoEn (particionSC ids acciones pid) (i - 2) =
            some Tipo.recepcion))) ∧
    ((etiquetasPartido (particionSC ids acciones pid))[i]? =
        some (a, some Fase.sideOut) ∨
      (etiquetasPartido (particionSC ids acciones pid))[i]? =
        some (a, some Fase.contraataque)) ∧
    (((secuenciaPorSet idsSet n acciones)[j]?).map filaContraataque =
        some true ↔
      (1 ≤ j ∧ tipoEn (ordenarPorId (acciones.filter (fun x =>
          decide (x.partido_id ∈ idsSet) && x.set_numero == n))) (j - 1) =
          some Tipo.defensa) ∨
      (2 ≤ j ∧ tipoEn (ordenarPorId (acciones.filter (fun x =>
          decide (x.partido_id ∈ idsSet) && x.set_numero == n))) (j - 1) =
          some Tipo.colocacion ∧
        tipoEn (ordenarPorId (acciones.filter (fun x =>
          decide (x.partido_id ∈ idsSet) && x.set_numero == n))) (j - 2) =
          some Tipo.defensa)) := by
  rw [etiquetas_getElem _ i a ha]
  refine ⟨?_, ?_, ?_⟩
  · rw [← patronSideout_pos (particionSC ids acciones pid) i]
    cases hpat : patronSideout
        (if i = 0 then none else tipoEn (particionSC ids acciones pid) (i - 1))
        (if i = 0 then none
          else if i = 1 then none
          else tipoEn (particionSC ids acciones pid) (i - 2)) with
    | false => simp [etiqueta, hat, hpat]
    | true => simp [etiqueta, hat, hpat]
  · cases hpat : patronSideout
        (if i = 0 then none else tipoEn (particionSC ids acciones pid) (i - 1))
        (if i = 0 then none
          else if i = 1 then none
          else tipoEn (particionSC ids acciones pid) (i - 2)) with
    | false => exact Or.inr (by simp [etiqueta, hat, hpat])
    | true => exact Or.inl (by simp [etiqueta, hat, hpat])
  · unfold secuenciaPorSet
    rw [conPrevias_none_getElem _ j b hb]
    rw [← patronContraataque_pos (ordenarPorId (acciones.filter (fun x =>
      decide (x.partido_id ∈ idsSet) && x.set_numero == n))) j]
    simp [filaContraataque, filaAtaque, hbt]

/-- A defense opening match 1, followed by an attack. -/
def ejDefensaInicial : Accion :=
  { id := 1, partido_id := 1, set_numero := 1, jugador_id := 5,
    tipo_accion := Tipo.defensa, marca := Marca.neutro }

/-- The attack directly after `ejDefensaInicial`. -/
def ejAtaqueTrasDefensa : Accion :=
  { id := 2, partido_id := 1, set_numero := 1, jugador_id := 7,
    tipo_accion := Tipo.atacar, marca := Marca.punto }

/-- Witness for C1 (amended): in `[defense, attack]` the attack is tagged
`Contraatac` by `obtener_sideout_contraataque` (its window drops the
defense, so no side-out pattern can match) and is counted as a
counter-attack by `obtener_sideout_por_set` (whose unrestricted window sees
the defense as predecessor). -/
theorem contraataque_complemento_sideout_witness :
    ((etiquetasPartido (particionSC [1]
        [ejDefensaInicial, ejAtaqueTrasDefensa] 1))[0]? =
        some (ejAtaqueTrasDefensa, some Fase.contraataque) ↔
      ¬ ((1 ≤ 0 ∧ tipoEn (particionSC [1]
            [ejDefensaInicial, ejAtaqueTrasDefensa] 1) (0 - 1) =
            some Tipo.recepcion) ∨
        (2 ≤ 0 ∧ tipoEn (particionSC [1]
            [ejDefensaInicial, ejAtaqueTrasDefensa] 1) (0 - 1) =
            some Tipo.colocacion ∧
          tipoEn (particionSC [1]
            [ejDefensaInicial, ejAtaqueTrasDefensa] 1) (0 - 2) =
            some Tipo.recepcion))) ∧
    ((etiquetasPartido (particionSC [1]
        [ejDefensaInicial, ejAtaqueTrasDefensa] 1))[0]? =
        some (ejAtaqueTrasDefensa, some Fase.sideOut) ∨
      (etiquetasPartido (particionSC [1]
        [ejDefensaInicial, ejAtaqueTrasDefensa] 1))[0]? =
        some (ejAtaqueTrasDefensa, some Fase.contraataque)) ∧
    (((secuenciaPorSet [1] 1 [ejDefensaInicial, ejAtaqueTrasDefensa])[1]?).map
        filaContraataque = some true ↔
      (1 ≤ 1 ∧ tipoEn (ordenarPorId
          (([ejDefensaInicial, ejAtaqueTrasDefensa] : List Accion).filter
            (fun x => decide (x.partido_id ∈ [1]) && x.set_numero == 1)))
          (1 - 1) = some Tipo.defensa) ∨
      (2 ≤ 1 ∧ tipoEn (ordenarPorId
          (([ejDefensaInicial, ejAtaqueTrasDefensa] : List Accion).filter
            (fun x => decide (x.partido_id ∈ [1]) && x.set_numero == 1)))
          (1 - 1) = some Tipo.colocacion ∧
        tipoEn (ordenarPorId
          (([ejDefensaInicial, ejAtaqueTrasDefensa] : List Accion).filter
            (fun x => decide (x.partido_id ∈ [1]) && x.set_numero == 1)))
          (1 - 2) = some Tipo.defensa)) :=
  contraataque_complemento_sideout [1] [ejDefensaInicial, ejAtaqueTrasDefensa]
    1 0 ejAtaqueTrasDefensa [1] 1 1 ejAtaqueTrasDefensa
    (by decide) (by decide) (by decide) (by decide)

/-- The side-out count exactly as claim C4 words the rule: inside one
match, restrict the actions to the types `{reception, set, attack}`, order
them by `id`, and count the attacks whose immediate predecessor in that
restricted subsequence is a reception, or is a set whose own immediate
predecessor is a reception.  Written from the claim's words, for comparison
with `sideoutDelPartido`, which `obtener_sideout_por_partido` actually
computes over the UNRESTRICTED sequence. -/
def sideoutSegunClaim (acciones : List Accion) (pid : Nat) : Nat :=
  ((conPrevias none none (ordenarPorId (acciones.filter
    (fun a => a.partido_id == pid && tresTipos a.tipo_accion)))).filter
    filaSideout).length

/-- A defense inserted between the reception and the attack of match 1. -/
def ejDefensaIntermedia : Accion :=
  { id := 2, partido_id := 1, set_numero := 1, jugador_id := 5,
    tipo_accion := Tipo.defensa, marca := Marca.neutro }

/-- The attack closing the `[reception, defense, attack]` match. -/
def ejAtaqueTrasRecepcionDefensa : Accion :=
  { id := 3, partido_id := 1, set_numero := 1, jugador_id := 7,
    tipo_accion := Tipo.atacar, marca := Marca.punto }

/-- Counterexample for C4: in the match `[reception, defense, attack]` the
attack IS side-out by the claim's restricted-subsequence rule (the defense
is filtered out, leaving the reception as immediate predecessor), yet
`obtener_sideout_por_partido` — whose lookback runs over all the match's
actions — sees the defense as predecessor and counts zero side-outs. -/
theorem sideout_por_partido_counterexample :
    sideoutDelPartido
      [ejRecepcionPartido1, ejDefensaIntermedia,
        ejAtaqueTrasRecepcionDefensa] 1 = 0 ∧
    sideoutSegunClaim
      [ejRecepcionPartido1, ejDefensaIntermedia,
        ejAtaqueTrasRecepcionDefensa] 1 = 1 ∧
    obtener_sideout_por_partido [1]
      [ejRecepcionPartido1, ejDefensaIntermedia,
        ejAtaqueTrasRecepcionDefensa] =
      [{ partido_id := 1, total_sideout := 0, eficacia_sideout := none }] := by
  decide

/-- Claim C4 (amended): the stated biconditional holds for
`obtener_sideout_contraataque`, whose match partition is exactly the
match's actions restricted to `{reception, set, attack}` and ordered by
`id` (sorted permutation of the restricted filter), with the attack at
position `i` tagged `Side-out` iff its predecessor at `i - 1` is a
reception or is a set with a reception at `i - 2`; but
`obtener_sideout_por_partido` evaluates the same two-row pattern over the
match's UNRESTRICTED `id`-ordered sequence, so any other action type
standing between breaks the chain there. -/
theorem sideout_lookback_caracterizacion (ids : List Nat)
    (acciones : List Accion) (pid : Nat) (i : Nat) (a : Accion)
    (j : Nat) (b : Accion)
    (ha : (particionSC ids acciones pid)[i]? = some a)
    (hat : a.tipo_accion = Tipo.atacar)
    (hb : (ordenarPorId (acciones.filter
      (fun x => x.partido_id == pid)))[j]? = some b)
    (hbt : b.tipo_accion = Tipo.atacar) :
    List.Sorted ordenId (particionSC ids acciones pid) ∧
    List.Perm (particionSC ids acciones pid)
      (acciones.filter (fun x => x.partido_id == pid &&
        decide (x.partido_id ∈ ids) && tresTipos x.tipo_accion)) ∧
    ((etiquetasPartido (particionSC ids acciones pid))[i]? =
        some (a, some Fase.sideOut) ↔
      (1 ≤ i ∧ tipoEn (particionSC ids acciones pid) (i - 1) =
          some Tipo.recepcion) ∨
      (2 ≤ i ∧ tipoEn (particionSC ids acciones pid) (i - 1) =
          some Tipo.colocacion ∧
        tipoEn (particionSC ids acciones pid) (i - 2) =
          some Tipo.recepcion)) ∧
    (((secuenciaPartido acciones pid)[j]?).map filaSideout = some true ↔
      (1 ≤ j ∧ tipoEn (ordenarPorId (acciones.filter
          (fun x => x.partido_id == pid))) (j - 1) = some Tipo.recepcion) ∨
      (2 ≤ j ∧ tipoEn (ordenarPorId (acciones.filter
          (fun x => x.partido_id == pid))) (j - 1) = some Tipo.colocacion ∧
        tipoEn (ordenarPorId (acciones.filter
          (fun x => x.partido_id == pid))) (j - 2) = some Tipo.recepcion)) := by
  refine ⟨List.sorted_insertionSort ordenId _,
    List.perm_insertionSort ordenId _, ?_, ?_⟩
  · rw [etiquetas_getElem _ i a ha]
    rw [← patronSideout_pos (particionSC ids acciones pid) i]
    cases hpat : patronSideout
        (if i = 0 then none else tipoEn (particionSC ids acciones pid) (i - 1))
        (if i = 0 then none
          else if i = 1 then none
          else tipoEn (particionSC ids acciones pid) (i - 2)) with
    | false => simp [etiqueta, hat, hpat]
    | true => simp [etiqueta, hat, hpat]
  · unfold secuenciaPartido
    rw [conPrevias_none_getElem _ j b hb]
    rw [← patronSideout_pos (ordenarPorId (acciones.filter
      (fun x => x.partido_id == pid))) j]
    simp [filaSideout, filaAtaque, hbt]

/-- A set action between the reception and the attack of match 1. -/
def ejColocacionMedia : Accion :=
  { id := 2, partido_id := 1, set_numero := 1, jugador_id := 6,
    tipo_accion := Tipo.colocacion, marca := Marca.neutro }

/-- The attack closing the `[reception, set, attack]` match. -/
def ejAtaqueTrasColocacion : Accion :=
  { id := 3, partido_id := 1, set_numero := 1, jugador_id := 7,
    tipo_accion := Tipo.atacar, marca := Marca.punto }

/-- Witness for C4 (amended): in the match `[reception, set, attack]`, both
pipelines see the set at position 1 and the reception at position 0, so the
attack at position 2 is tagged `Side-out` and counted side-out. -/
theorem sideout_lookback_caracterizacion_witness :
    List.Sorted ordenId (particionSC [1]
      [ejRecepcionPartido1, ejColocacionMedia, ejAtaqueTrasColocacion] 1) ∧
    List.Perm (particionSC [1]
        [ejRecepcionPartido1, ejColocacionMedia, ejAtaqueTrasColocacion] 1)
      (([ejRecepcionPartido1, ejColocacionMedia,
          ejAtaqueTrasColocacion] : List Accion).filter
        (fun x => x.partido_id == 1 &&
          decide (x.partido_id ∈ [1]) && tresTipos x.tipo_accion)) ∧
    ((etiquetasPartido (particionSC [1]
        [ejRecepcionPartido1, ejColocacionMedia,
          ejAtaqueTrasColocacion] 1))[2]? =
        some (ejAtaqueTrasColocacion, some Fase.sideOut) ↔
      (1 ≤ 2 ∧ tipoEn (particionSC [1]
          [ejRecepcionPartido1, ejColocacionMedia,
            ejAtaqueTrasColocacion] 1) (2 - 1) = some Tipo.recepcion) ∨
      (2 ≤ 2 ∧ tipoEn (particionSC [1]
          [ejRecepcionPartido1, ejColocacionMedia,
            ejAtaqueTrasColocacion] 1) (2 - 1) = some Tipo.colocacion ∧
        tipoEn (particionSC [1]
          [ejRecepcionPartido1, ejColocacionMedia,
            ejAtaqueTrasColocacion] 1) (2 - 2) = some Tipo.recepcion)) ∧
    (((secuenciaPartido
        [ejRecepcionPartido1, ejColocacionMedia, ejAtaqueTrasColocacion]
        1)[2]?).map filaSideout = some true ↔
      (1 ≤ 2 ∧ tipoEn (ordenarPorId
          (([ejRecepcionPartido1, ejColocacionMedia,
            ejAtaqueTrasColocacion] : List Accion).filter
            (fun x => x.partido_id == 1))) (2 - 1) = some Tipo.recepcion) ∨
      (2 ≤ 2 ∧ tipoEn (ordenarPorId
          (([ejRecepcionPartido1, ejColocacionMedia,
            ejAtaqueTrasColocacion] : List Accion).filter
            (fun x => x.partido_id == 1))) (2 - 1) = some Tipo.colocacion ∧
        tipoEn (ordenarPorId
          (([ejRecepcionPartido1, ejColocacionMedia,
            ejAtaqueTrasColocacion] : List Accion).filter
            (fun x => x.partido_id == 1))) (2 - 2) = some Tipo.recepcion)) :=
  sideout_lookback_caracterizacion [1]
    [ejRecepcionPartido1, ejColocacionMedia, ejAtaqueTrasColocacion] 1
    2 ejAtaqueTrasColocacion 2 ejAtaqueTrasColocacion
    (by decide) (by decide) (by decide) (by decide)

theorem asignarRanking_map_jugador (n : Nat) (l : List StatJugador) :
    (asignarRanking n l).map (·.jugador_id) = l.map (·.jugador_id) := by
  induction l generalizing n with
  | nil => rfl
  | cons s ss ih => simp [asignarRanking, ih]

theorem asignarRanking_length (n : Nat) (l : List StatJugador) :
    (asignarRanking n l).length = l.length := by
  induction l generalizing n with
  | nil => rfl
  | cons s ss ih => simp [asignarRanking, ih]

theorem asignarRanking_map_ranking (n : Nat) (l : List StatJugador) :
    (asignarRanking n l).map (·.ranking) = List.range' n l.length := by
  induction l generalizing n with
  | nil => rfl
  | cons s ss ih => simp [asignarRanking, ih, List.range'_succ]

theorem mem_asignarRanking (r : FilaRanking) (n : Nat)
    (l : List StatJugador) (hr : r ∈ asignarRanking n l) :
    ∃ s ∈ l, r.jugador_id = s.jugador_id ∧ r.total = s.total ∧
      r.eficacia = s.eficacia := by
  induction l generalizing n with
  | nil => simp [asignarRanking] at hr
  | cons s ss ih =>
    simp only [asignarRanking, List.mem_cons] at hr
    rcases hr with rfl | hr
    · exact ⟨s, List.mem_cons_self s ss, rfl, rfl, rfl⟩
    · obtain ⟨s0, hs0, he⟩ := ih (n + 1) hr
      exact ⟨s0, List.mem_cons_of_mem s hs0, he⟩

theorem asignarRanking_pairwise (n : Nat) (l : List StatJugador)
    (h : List.Pairwise ordenEficacia l) :
    List.Pairwise (fun x y => y.eficacia ≤ x.eficacia)
      (asignarRanking n l) := by
  induction l generalizing n with
  | nil => exact List.Pairwise.nil
  | cons s ss ih =>
    rcases h with _ | ⟨hrel, htail⟩
    refine List.Pairwise.cons ?_ (ih (n + 1) htail)
    intro y hy
    obtain ⟨s0, hs0, _, _, he⟩ := mem_asignarRanking y (n + 1) ss hy
    rw [he]
    exact hrel s0 hs0

theorem mem_jugadoresDe (sel : List Accion) (j : Nat) :
    j ∈ jugadoresDe sel ↔ ∃ a ∈ sel, a.jugador_id = j := by
  unfold jugadoresDe
  simp [List.mem_dedup, List.mem_map]

theorem statsPorJugador_spec (sel : List Accion) (s : StatJugador)
    (hs : s ∈ statsPorJugador sel) :
    s.total = (grupoJugador sel s.jugador_id).length ∧
    s.eficacia = round1
      (((grupoJugador sel s.jugador_id).filter
        (fun a => esPositiva a.marca)).length : ℤ)
      (grupoJugador sel s.jugador_id).length := by
  unfold statsPorJugador at hs
  simp only [List.mem_map] at hs
  obtain ⟨j0, _, rfl⟩ := hs
  exact ⟨rfl, rfl⟩

/-- Claim C6: the ranking output of `obtener_ranking_equipo` contains a
player exactly when they have at least 5 actions of the requested type in
the selected matches; its `ranking` column is `1..N` in list order; its
rows are pairwise (hence adjacent) non-increasing in efficacy; and every
row carries its player's true group size (at least 5) and rounded
efficacy. -/
theorem ranking_equipo_correcto (partido_ids : List Nat) (t : Tipo)
    (acciones : List Accion) (j : Nat) (r : FilaRanking)
    (hr : r ∈ obtener_ranking_equipo partido_ids t acciones) :
    (j ∈ (obtener_ranking_equipo partido_ids t acciones).map
        (·.jugador_id) ↔
      5 ≤ (grupoJugador (seleccionRanking partido_ids t acciones) j).length) ∧
    (obtener_ranking_equipo partido_ids t acciones).map (·.ranking) =
      List.range' 1 (obtener_ranking_equipo partido_ids t acciones).length ∧
    List.Pairwise (fun x y => y.eficacia ≤ x.eficacia)
      (obtener_ranking_equipo partido_ids t acciones) ∧
    5 ≤ r.total ∧
    r.total = (grupoJugador (seleccionRanking partido_ids t acciones)
      r.jugador_id).length ∧
    r.eficacia = round1
      (((grupoJugador (seleccionRanking partido_ids t acciones)
          r.jugador_id).filter (fun a => esPositiva a.marca)).length : ℤ)
      (grupoJugador (seleccionRanking partido_ids t acciones)
        r.jugador_id).length := by
  refine ⟨?_, ?_, ?_, ?_⟩
  · unfold obtener_ranking_equipo
    rw [asignarRanking_map_jugador]
    constructor
    · intro hj
      simp only [List.mem_map] at hj
      obtain ⟨s, hs, rfl⟩ := hj
      rw [List.mem_insertionSort] at hs
      rw [List.mem_filter] at hs
      obtain ⟨hstats, htot⟩ := hs
      have := (statsPorJugador_spec _ s hstats).1
      rw [← this]
      exact of_decide_eq_true htot
    · intro hlen
      have hpos : 0 < (grupoJugador
          (seleccionRanking partido_ids t acciones) j).length := by omega
      rw [List.length_pos] at hpos
      obtain ⟨a, hag⟩ := List.exists_mem_of_ne_nil _ hpos
      have haj : a ∈ seleccionRanking partido_ids t acciones ∧
          a.jugador_id = j := by
        unfold grupoJugador at hag
        rw [List.mem_filter] at hag
        exact ⟨hag.1, by simpa using hag.2⟩
      have hjm : j ∈ jugadoresDe (seleccionRanking partido_ids t acciones) :=
        (mem_jugadoresDe _ j).mpr ⟨a, haj.1, haj.2⟩
      have hst : statDe (seleccionRanking partido_ids t acciones) j ∈
          statsPorJugador (seleccionRanking partido_ids t acciones) := by
        unfold statsPorJugador
        exact List.mem_map.mpr ⟨j, hjm, rfl⟩
      refine List.mem_map.mpr
        ⟨statDe (seleccionRanking partido_ids t acciones) j, ?_, rfl⟩
      rw [List.mem_insertionSort, List.mem_filter]
      exact ⟨hst, by simpa [statDe] using hlen⟩
  · unfold obtener_ranking_equipo
    rw [asignarRanking_map_ranking, asignarRanking_length]
  · unfold obtener_ranking_equipo
    exact asignarRanking_pairwise 1 _ (List.sorted_insertionSort ordenEficacia _)
  · unfold obtener_ranking_equipo at hr
    obtain ⟨s, hs, hj, htot, hef⟩ := mem_asignarRanking r 1 _ hr
    rw [List.mem_insertionSort, List.mem_filter] at hs
    obtain ⟨hstats, h5⟩ := hs
    obtain ⟨hstot, hsef⟩ := statsPorJugador_spec _ s hstats
    rw [hj, htot, hef, hstot, hsef]
    refine ⟨?_, rfl, rfl⟩
    rw [← hstot]
    exact of_decide_eq_true h5

/-- Five attacks by player 10 in match 1: three `#`, two `-`. -/
def ejCincoAtaques : List Accion :=
  [{ id := 1, partido_id := 1, set_numero := 1, jugador_id := 10,
     tipo_accion := Tipo.atacar, marca := Marca.punto },
   { id := 2, partido_id := 1, set_numero := 1, jugador_id := 10,
     tipo_accion := Tipo.atacar, marca := Marca.punto },
   { id := 3, partido_id := 1, set_numero := 1, jugador_id := 10,
     tipo_accion := Tipo.atacar, marca := Marca.punto },
   { id := 4, partido_id := 1, set_numero := 1, jugador_id := 10,
     tipo_accion := Tipo.atacar, marca := Marca.negativo },
   { id := 5, partido_id := 1, set_numero := 1, jugador_id := 10,
     tipo_accion := Tipo.atacar, marca := Marca.negativo }]

/-- The single ranking row of `ejCincoAtaques`: rank 1, 5 attempts,
efficacy 60.0 percent. -/
def filaRankingDiez : FilaRanking :=
  { jugador_id := 10, total := 5, eficacia := 600, ranking := 1 }

/-- Witness for C6: player 10 with five attacks (efficacy 60.0) is ranked
first and the output satisfies every clause of the ranking contract. -/
theorem ranking_equipo_correcto_witness :
    (10 ∈ (obtener_ranking_equipo [1] Tipo.atacar ejCincoAtaques).map
        (·.jugador_id) ↔
      5 ≤ (grupoJugador (seleccionRanking [1] Tipo.atacar ejCincoAtaques)
        10).length) ∧
    (obtener_ranking_equipo [1] Tipo.atacar ejCincoAtaques).map
        (·.ranking) =
      List.range' 1
        (obtener_ranking_equipo [1] Tipo.atacar ejCincoAtaques).length ∧
    List.Pairwise (fun x y => y.eficacia ≤ x.eficacia)
      (obtener_ranking_equipo [1] Tipo.atacar ejCincoAtaques) ∧
    5 ≤ filaRankingDiez.total ∧
    filaRankingDiez.total =
      (grupoJugador (seleccionRanking [1] Tipo.atacar ejCincoAtaques)
        filaRankingDiez.jugador_id).length ∧
    filaRankingDiez.eficacia = round1
      (((grupoJugador (seleccionRanking [1] Tipo.atacar ejCincoAtaques)
          filaRankingDiez.jugador_id).filter
          (fun a => esPositiva a.marca)).length : ℤ)
      (grupoJugador (seleccionRanking [1] Tipo.atacar ejCincoAtaques)
        filaRankingDiez.jugador_id).length :=
  ranking_equipo_correcto [1] Tipo.atacar ejCincoAtaques 10 filaRankingDiez
    (by decide)

/-- Number of serve aces (`saque` + `#`) of player `j` in match `pid`. -/
def acesDe (acciones : List Accion) (pid j : Nat) : Nat :=
  (grupoJugador ((accionesPartido acciones pid).filter esAce) j).length

/-- A serve ace by player `j` with id `i` in match 1. -/
def ejAce (i j : Nat) : Accion :=
  { id := i, partido_id := 1, set_numero := 1, jugador_id := j,
    tipo_accion := Tipo.saque, marca := Marca.punto }

/-- Three aces by player 10 and three by player 11, all in match 1. -/
def ejSeisAces : List Accion :=
  [ejAce 1 10, ejAce 2 10, ejAce 3 10, ejAce 4 11, ejAce 5 11, ejAce 6 11]

/-- Counterexample for C7: players 10 and 11 both reach 3 serve aces in
match 1, yet the detector emits a single `Màquina de Aces` badge (the
query's `ORDER BY aces DESC LIMIT 1` with `fetchone` keeps only the top
player), not one badge per qualifying player. -/
theorem maquina_aces_counterexample :
    ((obtener_badges_equipo [{ id := 1, fecha := some 5 }] ejSeisAces).filter
      (fun b => b.logro == Logro.maquinaAces)).length = 1 ∧
    3 ≤ acesDe ejSeisAces 1 10 ∧
    3 ≤ acesDe ejSeisAces 1 11 := by
  decide

theorem filtro_maquinaAces (acciones : List Accion) (p : Partido) :
    (badgesDePartido acciones p).filter
        (fun x => x.logro == Logro.maquinaAces) =
      match recordConteo ((accionesPartido acciones p.id).filter esAce) 3 with
      | some c => [⟨Logro.maquinaAces, c.jugador_id, p.fecha, p.id⟩]
      | none => [] := by
  simp only [badgesDePartido]
  cases h1 : recordEficacia ((accionesPartido acciones p.id).filter
      (fun a => a.tipo_accion == Tipo.atacar)) 5 500 <;>
    cases h2 : recordConteo ((accionesPartido acciones p.id).filter esAce) 3 <;>
    cases h3 : recordConteo ((accionesPartido acciones p.id).filter
      esPuntoDirecto) 10 <;>
    cases h4 : recordConteo ((accionesPartido acciones p.id).filter
      esBloqueoPunto) 3 <;>
    cases h5 : recordEficacia ((accionesPartido acciones p.id).filter
      (fun a => a.tipo_accion == Tipo.recepcion)) 10 600 <;>
    simp [List.filter_append, List.filter_map, Function.comp]

/-- Claim C7 (amended): per match the `Màquina de Aces` rule emits exactly
one badge as soon as some player reaches 3 aces; the awarded player
themself has at least 3 aces and an ace count no smaller than that of any
other qualifying player — players beyond the first are not awarded, so two
players with 3 aces each share a single badge between them. -/
theorem maquina_aces_unica (acciones : List Accion) (p : Partido)
    (b : Badge) (j : Nat)
    (hb : b ∈ badgesDePartido acciones p)
    (hlogro : b.logro = Logro.maquinaAces)
    (hj : 3 ≤ acesDe acciones p.id j) :
    ((badgesDePartido acciones p).filter
        (fun x => x.logro == Logro.maquinaAces)).length = 1 ∧
    3 ≤ acesDe acciones p.id b.jugador_id ∧
    acesDe acciones p.id j ≤ acesDe acciones p.id b.jugador_id := by
  have hjm : j ∈ jugadoresDe ((accionesPartido acciones p.id).filter esAce) := by
    have hpos : grupoJugador ((accionesPartido acciones p.id).filter esAce)
        j ≠ [] := by
      have : 0 < acesDe acciones p.id j := by omega
      unfold acesDe at this
      rw [List.length_pos] at this
      exact this
    obtain ⟨a, ha⟩ := List.exists_mem_of_ne_nil _ hpos
    unfold grupoJugador at ha
    rw [List.mem_filter] at ha
    exact (mem_jugadoresDe _ j).mpr ⟨a, ha.1, by simpa using ha.2⟩
  have hcj : (⟨j, acesDe acciones p.id j⟩ : ConteoJugador) ∈
      conteosPorJugador ((accionesPartido acciones p.id).filter esAce) := by
    unfold conteosPorJugador
    exact List.mem_map.mpr ⟨j, hjm, rfl⟩
  have hcjf : (⟨j, acesDe acciones p.id j⟩ : ConteoJugador) ∈
      (conteosPorJugador ((accionesPartido acciones p.id).filter
        esAce)).filter (fun c => decide (3 ≤ c.conteo)) := by
    rw [List.mem_filter]
    exact ⟨hcj, by simpa using hj⟩
  have hcjs : (⟨j, acesDe acciones p.id j⟩ : ConteoJugador) ∈
      List.insertionSort ordenConteo
        ((conteosPorJugador ((accionesPartido acciones p.id).filter
          esAce)).filter (fun c => decide (3 ≤ c.conteo))) := by
    rw [List.mem_insertionSort]
    exact hcjf
  cases hsort : List.insertionSort ordenConteo
      ((conteosPorJugador ((accionesPartido acciones p.id).filter
        esAce)).filter (fun c => decide (3 ≤ c.conteo))) with
  | nil =>
    rw [hsort] at hcjs
    simp at hcjs
  | cons c0 tail =>
    have hrec : recordConteo ((accionesPartido acciones p.id).filter esAce)
        3 = some c0 := by
      unfold recordConteo
      rw [hsort]
      rfl
    have hfa := filtro_maquinaAces acciones p
    rw [hrec] at hfa
    have hbmem : b ∈ (badgesDePartido acciones p).filter
        (fun x => x.logro == Logro.maquinaAces) := by
      rw [List.mem_filter]
      exact ⟨hb, by simp [hlogro]⟩
    rw [hfa] at hbmem
    simp only [List.mem_singleton] at hbmem
    have hc0 : c0 ∈ (conteosPorJugador ((accionesPartido acciones
        p.id).filter esAce)).filter (fun c => decide (3 ≤ c.conteo)) := by
      have : c0 ∈ List.insertionSort ordenConteo
          ((conteosPorJugador ((accionesPartido acciones p.id).filter
            esAce)).filter (fun c => decide (3 ≤ c.conteo))) := by
        rw [hsort]
        exact List.mem_cons_self c0 tail
      rw [List.mem_insertionSort] at this
      exact this
    rw [List.mem_filter] at hc0
    obtain ⟨hc0m, hc03⟩ := hc0
    have hc0c : c0.conteo = acesDe acciones p.id c0.jugador_id := by
      unfold conteosPorJugador at hc0m
      simp only [List.mem_map] at hc0m
      obtain ⟨j0, _, rfl⟩ := hc0m
      rfl
    have hsorted := List.sorted_insertionSort ordenConteo
      ((conteosPorJugador ((accionesPartido acciones p.id).filter
        esAce)).filter (fun c => decide (3 ≤ c.conteo)))
    rw [hsort] at hsorted
    have hmaxj : acesDe acciones p.id j ≤ c0.conteo := by
      rw [hsort] at hcjs
      rcases List.mem_cons.mp hcjs with heq | htail
      · rw [← heq]
      · exact List.rel_of_sorted_cons hsorted _ htail
    have hbj : b.jugador_id = c0.jugador_id := by
      rw [hbmem]
    refine ⟨by rw [hfa]; rfl, ?_, ?_⟩
    · rw [hbj, ← hc0c]
      exact of_decide_eq_true hc03
    · rw [hbj, ← hc0c]
      exact hmaxj

/-- Three aces by player 10 in match 1, dated day 5. -/
def ejTresAces : List Accion :=
  [ejAce 1 10, ejAce 2 10, ejAce 3 10]

/-- Witness for C7 (amended): with player 10 alone at 3 aces, the match
yields exactly one ace badge, awarded to player 10. -/
theorem maquina_aces_unica_witness :
    ((badgesDePartido ejTresAces { id := 1, fecha := some 5 }).filter
        (fun x => x.logro == Logro.maquinaAces)).length = 1 ∧
    3 ≤ acesDe ejTresAces 1
      ({ logro := Logro.maquinaAces, jugador_id := 10, fecha := some 5,
         partido_id := 1 } : Badge).jugador_id ∧
    acesDe ejTresAces 1 10 ≤ acesDe ejTresAces 1
      ({ logro := Logro.maquinaAces, jugador_id := 10, fecha := some 5,
         partido_id := 1 } : Badge).jugador_id :=
  maquina_aces_unica ejTresAces { id := 1, fecha := some 5 }
    { logro := Logro.maquinaAces, jugador_id := 10, fecha := some 5,
      partido_id := 1 } 10 (by decide) (by decide) (by decide)

/-- Claim C10: `obtener_badges_equipo` itself returns the badge list
sorted by match date in descending order (pairwise, hence adjacent,
non-increasing date keys) and containing exactly the badges the per-match
rules produced; whenever every non-null badge date is a real date (at least
day 1, as any calendar date is above Python's `date.min` stand-in `0`),
null-dated badges can only follow non-null ones, never precede them. -/
theorem badges_ordenados (partidos : List Partido) (acciones : List Accion)
    (hpos : ∀ b ∈ obtener_badges_equipo partidos acciones,
      ∀ d, b.fecha = some d → 1 ≤ d) :
    List.Sorted ordenFecha (obtener_badges_equipo partidos acciones) ∧
    List.Perm (obtener_badges_equipo partidos acciones)
      (partidos.flatMap (badgesDePartido acciones)) ∧
    List.Pairwise (fun x y => x.fecha = none → y.fecha = none)
      (obtener_badges_equipo partidos acciones) := by
  refine ⟨List.sorted_insertionSort ordenFecha _,
    List.perm_insertionSort ordenFecha _, ?_⟩
  have hs : List.Pairwise ordenFecha
      (obtener_badges_equipo partidos acciones) :=
    List.sorted_insertionSort ordenFecha _
  refine List.Pairwise.imp_of_mem ?_ hs
  intro a b hma hmb hab hnone
  cases hbf : b.fecha with
  | none => rfl
  | some d =>
    exfalso
    have h1 : 1 ≤ d := hpos b hmb d hbf
    have ha0 : claveFecha a = 0 := by
      simp [claveFecha, hnone]
    have hb0 : claveFecha b ≤ 0 := by
      rw [← ha0]
      exact hab
    rw [claveFecha, hbf] at hb0
    simp at hb0
    omega

/-- Three aces by player 12 in match 2 (whose date is null). -/
def ejTresAcesPartido2 : List Accion :=
  [{ id := 4, partido_id := 2, set_numero := 1, jugador_id := 12,
     tipo_accion := Tipo.saque, marca := Marca.punto },
   { id := 5, partido_id := 2, set_numero := 1, jugador_id := 12,
     tipo_accion := Tipo.saque, marca := Marca.punto },
   { id := 6, partido_id := 2, set_numero := 1, jugador_id := 12,
     tipo_accion := Tipo.saque, marca := Marca.punto }]

/-- The two example matches: match 1 dated day 5, match 2 undated. -/
def ejPartidosFechas : List Partido :=
  [{ id := 1, fecha := some 5 }, { id := 2, fecha := none }]

/-- Actions of both example matches. -/
def ejAcesDosPartidos : List Accion :=
  ejTresAces ++ ejTresAcesPartido2

/-- Witness for C10: the two ace badges come back date-sorted (day 5
first) with the null-dated badge last. -/
theorem badges_ordenados_witness :
    List.Sorted ordenFecha
      (obtener_badges_equipo ejPartidosFechas ejAcesDosPartidos) ∧
    List.Perm (obtener_badges_equipo ejPartidosFechas ejAcesDosPartidos)
      (ejPartidosFechas.flatMap (badgesDePartido ejAcesDosPartidos)) ∧
    List.Pairwise (fun x y => x.fecha = none → y.fecha = none)
      (obtener_badges_equipo ejPartidosFechas ejAcesDosPartidos) :=
  badges_ordenados ejPartidosFechas ejAcesDosPartidos (by
    intro b hb d hd
    have he : obtener_badges_equipo ejPartidosFechas ejAcesDosPartidos =
        [{ logro := Logro.maquinaAces, jugador_id := 10, fecha := some 5,
           partido_id := 1 },
         { logro := Logro.maquinaAces, jugador_id := 12, fecha := none,
           partido_id := 2 }] := by decide
    rw [he] at hb
    simp only [List.mem_cons, List.not_mem_nil, or_false] at hb
    rcases hb with rfl | rfl
    · simp only [Option.some.injEq] at hd
      omega
    · simp at hd)

end Voleibol
